import Mathlib

/-!
Verification development for the hotel-booking core: a shallow embedding of
the pricing service (`src/server/src/services/pricing.service.ts`), the room
availability service and the booking controller (create/cancel), together
with theorems settling the specification claims.

Conventions of the embedding:
* Calendar dates carry no time-of-day; a date is its epoch-day number
  (days since 1970-01-01) as an `Int`, matching how date-only strings parse
  to UTC midnights so that the millisecond arithmetic in the source reduces
  to whole-day differences.
* Money is modelled as exact rational arithmetic (`ℚ`); the source computes
  with IEEE doubles, whose rounding is not modelled.
* Each `await prisma.*` call is one atomic store operation; the database is
  an explicit `DB` value threaded through the operations.
-/

attribute [local semireducible] Rat.add Rat.mul Rat.sub Rat.inv Rat.ofScientific

/-! ## Calendar arithmetic (Gregorian, as used by the JS `Date` accessors) -/

/-- Convert an epoch-day number to the Gregorian civil date (year, month, day),
month 1–12 and day 1–31 (Howard Hinnant's `civil_from_days`, with floor
division so the algorithm is total over `Int`). -/
def civilFromDays (z : Int) : Int × Nat × Nat :=
  let days := z + 719468
  let era : Int := days.ediv 146097
  let doe : Nat := (days.emod 146097).toNat
  let yoe : Nat := (doe - doe / 1460 + doe / 36524 - doe / 146096) / 365
  let y : Int := (yoe : Int) + era * 400
  let doy : Nat := doe - (365 * yoe + yoe / 4 - yoe / 100)
  let mp : Nat := (5 * doy + 2) / 153
  let d : Nat := doy - (153 * mp + 2) / 5 + 1
  let m : Nat := if mp < 10 then mp + 3 else mp - 9
  (if m ≤ 2 then y + 1 else y, m, d)

/-- `date.getMonth() + 1` of the source: calendar month, 1–12. -/
def monthOf (z : Int) : Nat := (civilFromDays z).2.1

/-- `date.getDate()` of the source: day of month, 1–31. -/
def domOf (z : Int) : Nat := (civilFromDays z).2.2

/-- `date.getDay()` of the source: day of week, 0 = Sunday … 6 = Saturday.
1970-01-01 was a Thursday (4). -/
def getDay (z : Int) : Nat := ((z + 4).emod 7).toNat

/-! ## Data model (Prisma schema tables used by the core) -/

/-- Table `RoomType`: a room category with capacity and standard base price. -/
structure RoomType where
  id : Nat
  maxGuests : Nat
  basePrice : ℚ
deriving DecidableEq

/-- Table `RoomPrice`: a date-scoped rate override for a category
(interval `[startDate, endDate]`, creation timestamp `createdAt`). -/
structure RoomPrice where
  id : Nat
  roomTypeId : Nat
  startDate : Int
  endDate : Int
  price : ℚ
  createdAt : Nat
deriving DecidableEq

/-- Table `Room`: a physical room; `status` is one of the strings
`"available"`, `"booked"`, `"maintenance"`. -/
structure Room where
  id : Nat
  hotelId : Nat
  roomTypeId : Nat
  status : String
deriving DecidableEq

/-- Table `BookingItem` (Stay Item): binds one room to its booking with the
captured per-night price and night count. -/
structure BookingItem where
  roomId : Nat
  pricePerNight : ℚ
  nights : Nat
deriving DecidableEq

/-- Table `Booking` (Reservation), with its owned booking items embedded;
`status` is a string, `"confirmed"` or `"cancelled"` in the core flows. -/
structure Booking where
  id : Nat
  userId : Nat
  hotelId : Nat
  checkIn : Int
  checkOut : Int
  totalAmount : ℚ
  status : String
  items : List BookingItem
deriving DecidableEq

/-- The persisted store: the tables the core reads and writes, plus the
auto-increment counter for booking ids. -/
structure DB where
  roomTypes : List RoomType
  roomPrices : List RoomPrice
  rooms : List Room
  bookings : List Booking
  nextBookingId : Nat
deriving DecidableEq

/-- `prisma.roomType.findUnique({ where: { id } })`. -/
def findRoomType (db : DB) (rtId : Nat) : Option RoomType :=
  db.roomTypes.find? (fun rt => rt.id == rtId)

/-! ## Pricing service (`pricing.service.ts`) -/

/-- One entry of `dailyPrices` in `calculateTotalPrice`. -/
structure DailyPrice where
  date : Int
  basePrice : ℚ
  weekendSurcharge : ℚ
  seasonalSurcharge : ℚ
  occupancySurcharge : ℚ
  totalPrice : ℚ
deriving DecidableEq

/-- The record returned by `calculateTotalPrice`. -/
structure PriceResult where
  dailyPrices : List DailyPrice
  subtotal : ℚ
  totalDiscount : ℚ
  totalSurcharge : ℚ
  totalPrice : ℚ
deriving DecidableEq

/-- The `where` clause of the override lookup in `getDailyBasePrice`:
`roomTypeId` matches and `startDate ≤ date ≤ endDate` (inclusive ends). -/
def overrideMatches (rtId : Nat) (date : Int) (o : RoomPrice) : Bool :=
  o.roomTypeId == rtId && decide (o.startDate ≤ date) && decide (date ≤ o.endDate)

/-- `findFirst({ ..., orderBy: { createdAt: 'desc' } })` over a row list:
the row with the largest `createdAt`, the earliest-stored row winning ties
(a deterministic tie-break). -/
def pickLatest : List RoomPrice → Option RoomPrice
  | [] => none
  | o :: rest =>
    match pickLatest rest with
    | none => some o
    | some b => if o.createdAt < b.createdAt then some b else some o

/-- `PricingService.getDailyBasePrice`: the latest-created override covering
the date, else the category's standard base price. -/
def getDailyBasePrice (db : DB) (rt : RoomType) (date : Int) : ℚ :=
  match pickLatest (db.roomPrices.filter (overrideMatches rt.id date)) with
  | some o => o.price
  | none => rt.basePrice

/-- `PricingService.isWeekend`: day of week is Sunday (0) or Saturday (6). -/
def isWeekend (z : Int) : Bool :=
  getDay z == 0 || getDay z == 6

/-- `PricingService.isHighSeason`: December from the 15th, January until the
15th, or July–August. -/
def isHighSeason (z : Int) : Bool :=
  let m := monthOf z
  let d := domOf z
  (m == 12 && decide (15 ≤ d)) || (m == 1 && decide (d ≤ 15)) ||
    (decide (7 ≤ m) && decide (m ≤ 8))

/-- `PricingService.calculateOccupancySurcharge`: 10% of the base price per
guest beyond the category capacity (`Nat` subtraction is the source's
`Math.max(0, guests - maxGuests)`). -/
def calculateOccupancySurcharge (rt : RoomType) (guests : Nat) (basePrice : ℚ) : ℚ :=
  let extraGuests := guests - rt.maxGuests
  if extraGuests = 0 then 0 else basePrice * (10 / 100) * extraGuests

/-- One iteration of the nightly loop in `calculateTotalPrice`. -/
def dailyPriceFor (db : DB) (rt : RoomType) (guests : Nat) (date : Int) : DailyPrice :=
  let base := getDailyBasePrice db rt date
  let w := if isWeekend date then base * (15 / 100) else 0
  let s := if isHighSeason date then base * (20 / 100) else 0
  let oc := calculateOccupancySurcharge rt guests base
  { date := date, basePrice := base, weekendSurcharge := w, seasonalSurcharge := s,
    occupancySurcharge := oc, totalPrice := base + w + s + oc }

/-- `PricingService.calculateTotalPrice`. The night count
`Math.ceil((checkOut - checkIn) ms / day ms)` is exactly `checkOut - checkIn`
for whole-day dates; a non-positive count makes the loop body unreachable.
Throwing (`Room type not found`) is the `Except.error` branch. -/
def calculateTotalPrice (db : DB) (roomTypeId : Nat) (checkInDate checkOutDate : Int)
    (guests : Nat) : Except String PriceResult :=
  match findRoomType db roomTypeId with
  | none => .error "Room type not found"
  | some roomType =>
    let nights : Int := checkOutDate - checkInDate
    let dailyPrices := (List.range nights.toNat).map
      (fun i : Nat => dailyPriceFor db roomType guests (checkInDate + (i : Int)))
    let subtotal := dailyPrices.foldl (fun sum day => sum + day.totalPrice) 0
    let totalDiscount := if 7 ≤ nights then subtotal * (10 / 100) else 0
    let totalSurcharge := dailyPrices.foldl
      (fun sum day => sum + day.weekendSurcharge + day.seasonalSurcharge
        + day.occupancySurcharge) 0
    .ok { dailyPrices := dailyPrices, subtotal := subtotal,
          totalDiscount := totalDiscount, totalSurcharge := totalSurcharge,
          totalPrice := subtotal - totalDiscount }

/-! ## Availability service (`room.service.ts`) -/

/-- The booking-level `where` clause shared by all overlap queries:
`checkIn ≤ requested.checkOut AND checkOut ≥ requested.checkIn`
(both comparisons inclusive). -/
def bookingOverlaps (checkIn checkOut : Int) (b : Booking) : Bool :=
  decide (b.checkIn ≤ checkOut) && decide (checkIn ≤ b.checkOut)

/-- `prisma.bookingItem.count` in `roomService.isRoomAvailable`: the number of
booking items for the room whose parent booking overlaps the requested
interval. Note the query has no condition on the booking status. -/
def overlappingItemCount (db : DB) (roomId : Nat) (checkIn checkOut : Int) : Nat :=
  (db.bookings.map (fun b =>
    if bookingOverlaps checkIn checkOut b then
      (b.items.filter (fun it => it.roomId == roomId)).length
    else 0)).sum

/-- `roomService.isRoomAvailable`: true when the overlap count is zero. -/
def isRoomAvailable (db : DB) (roomId : Nat) (checkIn checkOut : Int) : Bool :=
  overlappingItemCount db roomId checkIn checkOut == 0

/-- The `NOT bookingItems some` clause of `roomService.getAvailableRooms`:
some non-cancelled booking holding this room overlaps the interval. -/
def roomBlocked (db : DB) (r : Room) (checkIn checkOut : Int) : Bool :=
  db.bookings.any (fun b =>
    b.items.any (fun it => it.roomId == r.id) &&
    bookingOverlaps checkIn checkOut b &&
    b.status != "cancelled")

/-- `roomService.getAvailableRooms`: rooms of the hotel whose category holds
the guest count and which no overlapping non-cancelled booking blocks. -/
def getAvailableRooms (db : DB) (hotelId : Nat) (checkIn checkOut : Int)
    (guests : Nat) : List Room :=
  db.rooms.filter (fun r =>
    r.hotelId == hotelId &&
    (match findRoomType db r.roomTypeId with
     | some rt => decide (guests ≤ rt.maxGuests)
     | none => false) &&
    !(roomBlocked db r checkIn checkOut))

/-! ## Booking controller (`booking.controller.ts`) -/

/-- The request body of `createBooking` (an authenticated user's id is passed
separately). Dates are epoch days; the `!field` falsy checks of the source
apply to `roomId`, `guests` (zero) and the two strings (empty). -/
structure BookingInput where
  roomId : Nat
  checkInDate : Int
  checkOutDate : Int
  guests : Nat
  guestName : String
  guestEmail : String
deriving DecidableEq

/-- The observable outcome of `createBooking`: the 201 payload's booking, a
4xx rejection, or the catch-all 500. -/
inductive BookingResult
  | created (b : Booking)
  | clientError (code : Nat) (msg : String)
  | serverError (msg : String)
deriving DecidableEq

/-- `prisma.booking.findFirst` in `createBooking`: some booking having an item
for the room and overlapping the requested interval — with no condition on
the booking status. -/
def findExistingBooking (db : DB) (roomId : Nat) (checkIn checkOut : Int) :
    Option Booking :=
  db.bookings.find? (fun b =>
    b.items.any (fun it => it.roomId == roomId) && bookingOverlaps checkIn checkOut b)

/-- `prisma.room.update({ where: { id }, data: { status } })`. -/
def setRoomStatus (rooms : List Room) (roomId : Nat) (st : String) : List Room :=
  rooms.map (fun r => if r.id == roomId then { r with status := st } else r)

/-- The `bookingData` record built by `createBooking`: status `confirmed`,
total from the pricing result, one booking item whose `pricePerNight` is
`dailyPrices[0]?.totalPrice || room.roomType.basePrice` (JS `||`: the base
price stands in both for a missing first night and for a first-night total
equal to 0, which is falsy) and whose `nights` is `dailyPrices.length`. -/
def newBookingOf (db : DB) (userId : Nat) (inp : BookingInput) (room : Room)
    (rt : RoomType) (pr : PriceResult) : Booking :=
  { id := db.nextBookingId
    userId := userId
    hotelId := room.hotelId
    checkIn := inp.checkInDate
    checkOut := inp.checkOutDate
    totalAmount := pr.totalPrice
    status := "confirmed"
    items := [{ roomId := room.id
                pricePerNight :=
                  match pr.dailyPrices.head? with
                  | some dp => if dp.totalPrice = 0 then rt.basePrice else dp.totalPrice
                  | none => rt.basePrice
                nights := pr.dailyPrices.length }] }

/-- `createBooking`, with each `await prisma.*` taken in source order. The
`roomUpdateFails` flag makes the final `prisma.room.update` throw, which the
source's `catch` turns into a 500 response — after `prisma.booking.create`
has already committed (there is no enclosing transaction). -/
def createBookingCore (db : DB) (userId : Nat) (inp : BookingInput)
    (roomUpdateFails : Bool) : BookingResult × DB :=
  if inp.roomId == 0 || inp.guests == 0 || inp.guestName == "" || inp.guestEmail == "" then
    (.clientError 400 "Missing required fields", db)
  else
    match db.rooms.find? (fun r => r.id == inp.roomId) with
    | none => (.clientError 404 "Room not found", db)
    | some room =>
      if room.status != "available" then
        (.clientError 400 "Room is not available for booking", db)
      else
        match findExistingBooking db inp.roomId inp.checkInDate inp.checkOutDate with
        | some _ => (.clientError 400 "Room is already booked for the selected dates", db)
        | none =>
          match findRoomType db room.roomTypeId,
              calculateTotalPrice db room.roomTypeId inp.checkInDate inp.checkOutDate
                inp.guests with
          | some rt, .ok pr =>
            let booking := newBookingOf db userId inp room rt pr
            let db1 := { db with bookings := db.bookings ++ [booking],
                                 nextBookingId := db.nextBookingId + 1 }
            if roomUpdateFails then
              (.serverError "Error creating booking", db1)
            else
              (.created booking,
               { db1 with rooms := setRoomStatus db1.rooms room.id "booked" })
          | _, _ => (.serverError "Error creating booking", db)

/-- `createBooking` as it runs when every store operation succeeds. -/
def createBooking (db : DB) (userId : Nat) (inp : BookingInput) : BookingResult × DB :=
  createBookingCore db userId inp false

/-- The authenticated requester of `cancelBooking`. -/
structure Requester where
  userId : Nat
  role : String
deriving DecidableEq

/-- The ownership-or-elevated-role check of `cancelBooking`. -/
def authorizedFor (req : Requester) (b : Booking) : Bool :=
  req.userId == b.userId || req.role == "ADMIN" || req.role == "MANAGER"

/-- The observable outcome of `cancelBooking`. -/
inductive CancelResult
  | cancelledB (b : Booking)
  | notFound
  | forbidden
deriving DecidableEq

/-- `prisma.booking.update({ data: { status } })` over the booking table. -/
def setBookingStatus (bookings : List Booking) (id : Nat) (st : String) : List Booking :=
  bookings.map (fun b => if b.id == id then { b with status := st } else b)

/-- `cancelBooking`: 404 when the booking is absent, 403 when the requester is
neither the owner nor ADMIN/MANAGER; otherwise it sets the booking status to
`cancelled` and every room of its items back to `available`. The source never
inspects the current status, so an already-cancelled booking is processed the
same way. -/
def cancelBooking (db : DB) (req : Requester) (id : Nat) : CancelResult × DB :=
  match db.bookings.find? (fun b => b.id == id) with
  | none => (.notFound, db)
  | some booking =>
    if !(authorizedFor req booking) then (.forbidden, db)
    else
      let db1 := { db with bookings := setBookingStatus db.bookings id "cancelled" }
      let db2 := { db1 with
        rooms := booking.items.foldl
          (fun rs it => setRoomStatus rs it.roomId "available") db1.rooms }
      (.cancelledB { booking with status := "cancelled" }, db2)

/-! ## Interleaved execution of `createBooking` (for the concurrency claims)

The handler performs its store operations as separate awaited calls with no
enclosing transaction, so between any two of them another concurrently
running handler may run its own operations against the same store. The
following small-step model cuts `createBooking` at exactly those await
points; `stepReserve` performs the next store operation of one in-flight
request. -/

/-- The continuation state of one in-flight `createBooking` request, between
store operations. -/
inductive Phase
  | start
  | roomChecked (room : Room)
  | overlapChecked (room : Room)
  | priced (room : Room) (rt : RoomType) (pr : PriceResult)
  | createdB (b : Booking) (room : Room)
  | done (r : BookingResult)
deriving DecidableEq

/-- One store round-trip of `createBooking`: the room lookup (with its status
check), the overlap query, the pricing reads, the booking insert, or the room
status update — in source order. -/
def stepReserve (userId : Nat) (inp : BookingInput) (db : DB) : Phase → Phase × DB
  | .start =>
    (if inp.roomId == 0 || inp.guests == 0 || inp.guestName == "" || inp.guestEmail == ""
     then .done (.clientError 400 "Missing required fields")
     else
       match db.rooms.find? (fun r => r.id == inp.roomId) with
       | none => .done (.clientError 404 "Room not found")
       | some room =>
         if room.status != "available" then
           .done (.clientError 400 "Room is not available for booking")
         else .roomChecked room,
     db)
  | .roomChecked room =>
    (match findExistingBooking db inp.roomId inp.checkInDate inp.checkOutDate with
     | some _ => .done (.clientError 400 "Room is already booked for the selected dates")
     | none => .overlapChecked room,
     db)
  | .overlapChecked room =>
    (match findRoomType db room.roomTypeId,
        calculateTotalPrice db room.roomTypeId inp.checkInDate inp.checkOutDate
          inp.guests with
     | some rt, .ok pr => .priced room rt pr
     | _, _ => .done (.serverError "Error creating booking"),
     db)
  | .priced room rt pr =>
    let b := newBookingOf db userId inp room rt pr
    (.createdB b room,
     { db with bookings := db.bookings ++ [b], nextBookingId := db.nextBookingId + 1 })
  | .createdB b room =>
    (.done (.created b), { db with rooms := setRoomStatus db.rooms room.id "booked" })
  | .done r => (.done r, db)

/-- Two concurrent `createBooking` requests over one shared store. -/
structure TwoThreads where
  db : DB
  p1 : Phase
  p2 : Phase
deriving DecidableEq

/-- Run one store operation of the scheduled request (`true` = first). -/
def schedStep (u1 u2 : Nat) (inp : BookingInput) (s : TwoThreads) (choice : Bool) :
    TwoThreads :=
  if choice then
    let (p, db) := stepReserve u1 inp s.db s.p1
    { s with db := db, p1 := p }
  else
    let (p, db) := stepReserve u2 inp s.db s.p2
    { s with db := db, p2 := p }

/-- Run both requests under the given interleaving schedule. -/
def runSched (u1 u2 : Nat) (inp : BookingInput) : List Bool → TwoThreads → TwoThreads
  | [], s => s
  | c :: cs, s => runSched u1 u2 inp cs (schedStep u1 u2 inp s c)

/-- Did this request finish with a 201 created response? -/
def isSuccess : Phase → Bool
  | .done (.created _) => true
  | _ => false

/-! ## Concrete fixtures -/

/-- One category (capacity 2, base price 100), one available room, no
overrides, no bookings. -/
def dbStd : DB :=
  { roomTypes := [⟨1, 2, 100⟩], roomPrices := [], rooms := [⟨1, 1, 1, "available"⟩],
    bookings := [], nextBookingId := 1 }

/-- A two-night request for room 1, 2025-12-19 → 2025-12-21 (epoch days
20441 → 20443): a Friday high-season night priced 120 and a Saturday
high-season night priced 135. -/
def inpDec : BookingInput :=
  ⟨1, 20441, 20443, 2, "Ada", "ada"⟩

/-- The booking `createBooking dbStd 7 inpDec` creates: two nights priced
120 and 135, total 255, captured per-night price 120 (the first night). -/
def bookingDec : Booking :=
  ⟨1, 7, 1, 20441, 20443, 255, "confirmed", [⟨1, 120, 2⟩]⟩

/-- A store holding only an already-cancelled booking for room 1 over
[100, 102], owned by user 5. -/
def dbCancelled : DB :=
  { dbStd with bookings := [⟨1, 5, 1, 100, 102, 200, "cancelled", [⟨1, 100, 2⟩]⟩] }

/-- A store holding a confirmed booking for room 1 over [100, 102] (room
status `booked`), owned by user 5. -/
def bookingConf : Booking := ⟨1, 5, 1, 100, 102, 200, "confirmed", [⟨1, 100, 2⟩]⟩

def dbConf : DB :=
  { dbStd with bookings := [bookingConf], rooms := [⟨1, 1, 1, "booked"⟩],
               nextBookingId := 2 }

/-- A store with a rate override of price 0 covering every date of interest
(category base price stays 100). -/
def dbZeroOverride : DB :=
  { dbStd with roomPrices := [⟨1, 1, 0, 100000, 0, 5⟩] }

/-- A store with two overrides for category 1 both covering day 50: price 80
created at time 3, price 90 created at time 9 (the later one must win). -/
def dbTwoOverrides : DB :=
  { dbStd with roomPrices := [⟨1, 1, 0, 200, 80, 3⟩, ⟨2, 1, 0, 200, 90, 9⟩] }

/-- An interleaving in which both requests run their overlap query before
either inserts its booking: thread 1 room check, thread 2 room check,
thread 1 overlap query, thread 2 overlap query, then each thread finishes
(pricing, insert, room update) in turn. -/
def raceSchedule : List Bool :=
  [true, false, true, false, true, true, true, false, false, false]

/-- The final state of the two interleaved `createBooking` requests. -/
def raceRun : TwoThreads := runSched 7 8 inpDec raceSchedule ⟨dbStd, .start, .start⟩

/-! ## Supporting lemmas -/

theorem foldl_add_map_sum {α : Type} (f : α → ℚ) :
    ∀ (l : List α) (c : ℚ), l.foldl (fun s a => s + f a) c = c + (l.map f).sum := by
  intro l
  induction l with
  | nil => intro c; simp
  | cons a l ih => intro c; simp [List.foldl_cons, ih, add_assoc]

theorem cast_nat_sub_eq_max (a b : ℕ) : ((a - b : ℕ) : ℚ) = max 0 ((a : ℚ) - b) := by
  rcases le_or_lt a b with h | h
  · rw [Nat.sub_eq_zero_of_le h, max_eq_left]
    · simp
    · simpa using (Nat.cast_le (α := ℚ)).mpr h
  · rw [Nat.cast_sub h.le, max_eq_right]
    simpa using (Nat.cast_le (α := ℚ)).mpr h.le

theorem occupancy_eq_spec (rt : RoomType) (guests : Nat) (b : ℚ) :
    calculateOccupancySurcharge rt guests b
      = b * (10 / 100) * max 0 ((guests : ℚ) - rt.maxGuests) := by
  unfold calculateOccupancySurcharge
  rcases Nat.eq_zero_or_pos (guests - rt.maxGuests) with h | h
  · rw [if_pos h, ← cast_nat_sub_eq_max, h]
    simp
  · rw [if_neg (Nat.pos_iff_ne_zero.mp h), ← cast_nat_sub_eq_max]

theorem isWeekend_iff (z : Int) :
    isWeekend z = true ↔ (getDay z = 6 ∨ getDay z = 0) := by
  simp [isWeekend, or_comm]

theorem isHighSeason_iff (z : Int) (h1 : 1 ≤ domOf z) (h31 : domOf z ≤ 31) :
    isHighSeason z = true ↔
      ((monthOf z = 12 ∧ 15 ≤ domOf z ∧ domOf z ≤ 31) ∨
       (monthOf z = 1 ∧ 1 ≤ domOf z ∧ domOf z ≤ 15) ∨
       (monthOf z = 7 ∨ monthOf z = 8)) := by
  simp only [isHighSeason, Bool.or_eq_true, Bool.and_eq_true, beq_iff_eq,
    decide_eq_true_eq]
  omega

theorem pickLatest_eq_none_iff (l : List RoomPrice) :
    pickLatest l = none ↔ l = [] := by
  cases l with
  | nil => simp [pickLatest]
  | cons a l =>
    rw [pickLatest]
    cases pickLatest l with
    | none => simp
    | some b =>
      dsimp only
      split <;> simp

theorem pickLatest_spec :
    ∀ l : List RoomPrice, ∀ o, pickLatest l = some o →
      o ∈ l ∧ ∀ o' ∈ l, o'.createdAt ≤ o.createdAt := by
  intro l
  induction l with
  | nil => intro o h; simp [pickLatest] at h
  | cons a l ih =>
    intro o h
    rw [pickLatest] at h
    cases hr : pickLatest l with
    | none =>
      rw [hr] at h
      dsimp only at h
      have hnil : l = [] := (pickLatest_eq_none_iff l).mp hr
      subst hnil
      cases h
      simp
    | some b =>
      rw [hr] at h
      dsimp only at h
      obtain ⟨hb, hmax⟩ := ih b hr
      by_cases hlt : a.createdAt < b.createdAt
      · rw [if_pos hlt] at h
        cases h
        refine ⟨List.mem_cons_of_mem _ hb, ?_⟩
        intro o' ho'
        rcases List.mem_cons.mp ho' with rfl | ho'
        · exact hlt.le
        · exact hmax o' ho'
      · rw [if_neg hlt] at h
        cases h
        refine ⟨List.mem_cons_self _ _, ?_⟩
        intro o' ho'
        rcases List.mem_cons.mp ho' with rfl | ho'
        · exact le_refl _
        · exact le_trans (hmax o' ho') (not_lt.mp hlt)

theorem setRoomStatus_mem (rooms : List Room) (roomId : Nat) (st : String) :
    ∀ r ∈ setRoomStatus rooms roomId st, r.id = roomId → r.status = st := by
  intro r hr hid
  obtain ⟨a, ha, hEq⟩ := List.mem_map.mp hr
  by_cases h : a.id = roomId
  · rw [if_pos (beq_iff_eq.mpr h)] at hEq
    rw [← hEq]
  · rw [if_neg (by simpa using h)] at hEq
    subst hEq
    exact absurd hid h

theorem foldl_setRoomStatus_available :
    ∀ (items : List BookingItem) (rooms : List Room) (x : Nat),
      (∀ r ∈ rooms, r.id = x → r.status = "available") →
      ∀ r ∈ items.foldl (fun rs it => setRoomStatus rs it.roomId "available") rooms,
        r.id = x → r.status = "available" := by
  intro items
  induction items with
  | nil => intro rooms x h; simpa using h
  | cons it its ih =>
    intro rooms x h
    rw [List.foldl_cons]
    refine ih _ x ?_
    intro r hr hid
    obtain ⟨a, ha, hEq⟩ := List.mem_map.mp hr
    by_cases hidx : a.id = it.roomId
    · rw [if_pos (beq_iff_eq.mpr hidx)] at hEq
      rw [← hEq]
    · rw [if_neg (by simpa using hidx)] at hEq
      subst hEq
      exact h a ha hid

theorem foldl_setRoomStatus_item_available :
    ∀ (items : List BookingItem) (rooms : List Room),
      ∀ r ∈ items.foldl (fun rs it => setRoomStatus rs it.roomId "available") rooms,
        (∃ it ∈ items, it.roomId = r.id) → r.status = "available" := by
  intro items
  induction items with
  | nil => intro rooms r _ h; simp at h
  | cons it its ih =>
    intro rooms r hr hex
    obtain ⟨it', hit', hid⟩ := hex
    rcases List.mem_cons.mp hit' with rfl | htl
    · rw [List.foldl_cons] at hr
      refine foldl_setRoomStatus_available its _ it'.roomId ?_ r hr hid.symm
      intro r' hr' hid'
      exact setRoomStatus_mem rooms it'.roomId "available" r' hr' hid'
    · exact ih _ r (by rwa [List.foldl_cons] at hr) ⟨it', htl, hid⟩

theorem setBookingStatus_mem (bookings : List Booking) (id : Nat) (st : String) :
    ∀ b ∈ setBookingStatus bookings id st, b.id = id → b.status = st := by
  intro b hb hid
  obtain ⟨a, ha, hEq⟩ := List.mem_map.mp hb
  by_cases h : a.id = id
  · rw [if_pos (beq_iff_eq.mpr h)] at hEq
    rw [← hEq]
  · rw [if_neg (by simpa using h)] at hEq
    subst hEq
    exact absurd hid h

theorem capacity_match_iff (db : DB) (rtId guests : Nat) :
    (match findRoomType db rtId with
      | some rt => decide (guests ≤ rt.maxGuests)
      | none => false) = true ↔
    ∃ rt, findRoomType db rtId = some rt ∧ guests ≤ rt.maxGuests := by
  cases h : findRoomType db rtId with
  | none => simp
  | some rt => simp [h]

theorem dailyPriceFor_spec (db : DB) (rt : RoomType) (guests : Nat) (d : Int) :
    (dailyPriceFor db rt guests d).date = d ∧
    (dailyPriceFor db rt guests d).basePrice = getDailyBasePrice db rt d ∧
    ((dailyPriceFor db rt guests d).weekendSurcharge =
      if getDay d = 6 ∨ getDay d = 0 then
        (dailyPriceFor db rt guests d).basePrice * (15 / 100) else 0) ∧
    ((dailyPriceFor db rt guests d).seasonalSurcharge =
      if isHighSeason d then
        (dailyPriceFor db rt guests d).basePrice * (20 / 100) else 0) ∧
    (dailyPriceFor db rt guests d).occupancySurcharge =
      (dailyPriceFor db rt guests d).basePrice * (10 / 100)
        * max 0 ((guests : ℚ) - rt.maxGuests) ∧
    (dailyPriceFor db rt guests d).totalPrice =
      (dailyPriceFor db rt guests d).basePrice
      + (dailyPriceFor db rt guests d).weekendSurcharge
      + (dailyPriceFor db rt guests d).seasonalSurcharge
      + (dailyPriceFor db rt guests d).occupancySurcharge := by
  refine ⟨rfl, rfl, ?_, rfl, ?_, rfl⟩
  · exact if_congr (isWeekend_iff d) rfl rfl
  · exact occupancy_eq_spec rt guests _

theorem calculateTotalPrice_ok {db : DB} {rtId : Nat} {checkIn checkOut : Int}
    {guests : Nat} {res : PriceResult} {rt : RoomType}
    (hok : calculateTotalPrice db rtId checkIn checkOut guests = .ok res)
    (hrt : findRoomType db rtId = some rt) :
    res.dailyPrices = (List.range (checkOut - checkIn).toNat).map
        (fun i : Nat => dailyPriceFor db rt guests (checkIn + (i : Int))) ∧
    res.subtotal = res.dailyPrices.foldl (fun s day => s + day.totalPrice) 0 ∧
    res.totalDiscount = (if 7 ≤ checkOut - checkIn then res.subtotal * (10 / 100) else 0) ∧
    res.totalPrice = res.subtotal - res.totalDiscount := by
  unfold calculateTotalPrice at hok
  rw [hrt] at hok
  dsimp only at hok
  injection hok with h
  subst h
  exact ⟨rfl, rfl, rfl, rfl⟩

/-- C3: each night `d` of a priced stay is charged
`base + weekendSurcharge + seasonalSurcharge + occupancySurcharge`, where
`base` is the resolved nightly base price, the weekend surcharge is
`base * 0.15` exactly on Saturdays/Sundays, the seasonal surcharge is
`base * 0.20` exactly in the high-season windows (December 15–31,
January 1–15, July 1–August 31, for the calendar's day-of-month range),
the occupancy surcharge is `base * 0.10 * max(0, guests - capacity)`, the
nights are exactly `checkIn, checkIn+1, …, checkOut-1`; and the concrete
example — category base 100 and capacity 2, two high-season weekend nights
2025-12-20 → 2025-12-22, 2 guests — prices each night at 135 with
subtotal 270. -/
theorem per_night_price_formula :
    (∀ (db : DB) (rtId : Nat) (checkIn checkOut : Int) (guests : Nat)
        (res : PriceResult) (rt : RoomType),
      calculateTotalPrice db rtId checkIn checkOut guests = .ok res →
      findRoomType db rtId = some rt →
      (res.dailyPrices.map DailyPrice.date
        = (List.range (checkOut - checkIn).toNat).map (fun i : Nat => checkIn + (i : Int))) ∧
      ∀ dp ∈ res.dailyPrices,
        dp.basePrice = getDailyBasePrice db rt dp.date ∧
        (dp.weekendSurcharge =
          if getDay dp.date = 6 ∨ getDay dp.date = 0 then dp.basePrice * (15 / 100) else 0) ∧
        (dp.seasonalSurcharge =
          if isHighSeason dp.date then dp.basePrice * (20 / 100) else 0) ∧
        dp.occupancySurcharge = dp.basePrice * (10 / 100) * max 0 ((guests : ℚ) - rt.maxGuests) ∧
        dp.totalPrice = dp.basePrice + dp.weekendSurcharge + dp.seasonalSurcharge
          + dp.occupancySurcharge) ∧
    (∀ z : Int, 1 ≤ domOf z → domOf z ≤ 31 →
      (isHighSeason z = true ↔
        ((monthOf z = 12 ∧ 15 ≤ domOf z ∧ domOf z ≤ 31) ∨
         (monthOf z = 1 ∧ 1 ≤ domOf z ∧ domOf z ≤ 15) ∨
         (monthOf z = 7 ∨ monthOf z = 8)))) ∧
    (calculateTotalPrice dbStd 1 20442 20444 2).map
      (fun r => (r.dailyPrices.map DailyPrice.totalPrice, r.subtotal)) = .ok ([135, 135], 270) := by
  refine ⟨?_, isHighSeason_iff, by rfl⟩
  intro db rtId checkIn checkOut guests res rt hok hrt
  obtain ⟨hdp, -, -, -⟩ := calculateTotalPrice_ok hok hrt
  constructor
  · rw [hdp, List.map_map]
    rfl
  · intro dp hmem
    rw [hdp] at hmem
    obtain ⟨i, hi, hEq⟩ := List.mem_map.mp hmem
    subst hEq
    obtain ⟨hdate, hbase, hw, hs, ho, ht⟩ := dailyPriceFor_spec db rt guests (checkIn + i)
    rw [hdate]
    exact ⟨hbase, hw, hs, ho, ht⟩

/-- Witness for `per_night_price_formula`: applied to the concrete store
`dbStd` and the stay 2025-12-19 → 2025-12-21 (one Friday night, one Saturday
night, both in the December high season, 2 guests): segment its per-night
consequences at that input. -/
theorem per_night_price_formula_witness :
    ((calculateTotalPrice dbStd 1 20441 20443 2).map
      (fun r => r.dailyPrices.map DailyPrice.totalPrice) = .ok [120, 135]) ∧
    ∀ dp ∈ [dailyPriceFor dbStd ⟨1, 2, 100⟩ 2 20441, dailyPriceFor dbStd ⟨1, 2, 100⟩ 2 20442],
      dp.totalPrice = dp.basePrice + dp.weekendSurcharge + dp.seasonalSurcharge
        + dp.occupancySurcharge := by
  constructor
  · rfl
  · intro dp hmem
    have h := (per_night_price_formula.1 dbStd 1 20441 20443 2
      ⟨[dailyPriceFor dbStd ⟨1, 2, 100⟩ 2 20441, dailyPriceFor dbStd ⟨1, 2, 100⟩ 2 20442],
        255, 0, 55, 255⟩ ⟨1, 2, 100⟩ (by rfl) (by rfl)).2 dp hmem
    exact h.2.2.2.2

/-- C4: the subtotal of a priced stay is the sum of the per-night totals,
the long-stay discount is `subtotal * 0.10` exactly when the night count
(`checkOut - checkIn`) is at least 7 and 0 otherwise, and the total is
`subtotal - discount`; concretely, a 6-night stay gets discount 0 and a
7-night stay (subtotal 730) gets exactly 73 = 730 * 10%. -/
theorem aggregate_totals :
    (∀ (db : DB) (rtId : Nat) (checkIn checkOut : Int) (guests : Nat)
        (res : PriceResult) (rt : RoomType),
      calculateTotalPrice db rtId checkIn checkOut guests = .ok res →
      findRoomType db rtId = some rt →
      res.dailyPrices.length = (checkOut - checkIn).toNat ∧
      res.subtotal = (res.dailyPrices.map DailyPrice.totalPrice).sum ∧
      res.totalDiscount = (if 7 ≤ checkOut - checkIn then res.subtotal * (10 / 100) else 0) ∧
      res.totalPrice = res.subtotal - res.totalDiscount) ∧
    (calculateTotalPrice dbStd 1 20150 20156 2).map
      (fun r => ((r.dailyPrices.length : Int), r.totalDiscount)) = .ok (6, 0) ∧
    (calculateTotalPrice dbStd 1 20150 20157 2).map
      (fun r => ((r.dailyPrices.length : Int), r.subtotal, r.totalDiscount, r.totalPrice))
      = .ok (7, 730, 73, 657) ∧
    (730 : ℚ) * (10 / 100) = 73 := by
  refine ⟨?_, by rfl, by rfl, by norm_num⟩
  intro db rtId checkIn checkOut guests res rt hok hrt
  obtain ⟨hdp, hsub, hdisc, htot⟩ := calculateTotalPrice_ok hok hrt
  refine ⟨?_, ?_, hdisc, htot⟩
  · rw [hdp, List.length_map, List.length_range]
  · rw [hsub, foldl_add_map_sum, zero_add]

/-- Witness for `aggregate_totals`: applied to the concrete 7-night stay
2025-03-03 → 2025-03-10 on `dbStd`, whose priced result is subtotal 730,
discount 73 and total 657. -/
theorem aggregate_totals_witness :
    ({ dailyPrices := (List.range 7).map
         (fun i : Nat => dailyPriceFor dbStd ⟨1, 2, 100⟩ 2 (20150 + (i : Int))),
       subtotal := 730, totalDiscount := 73, totalSurcharge := 30,
       totalPrice := 657 : PriceResult}.totalDiscount
      = if (7 : Int) ≤ 20157 - 20150 then (730 : ℚ) * (10 / 100) else 0) ∧
    ({ dailyPrices := (List.range 7).map
         (fun i : Nat => dailyPriceFor dbStd ⟨1, 2, 100⟩ 2 (20150 + (i : Int))),
       subtotal := 730, totalDiscount := 73, totalSurcharge := 30,
       totalPrice := 657 : PriceResult}.totalPrice = (730 : ℚ) - 73) := by
  have h := aggregate_totals.1 dbStd 1 20150 20157 2
    { dailyPrices := (List.range 7).map
        (fun i : Nat => dailyPriceFor dbStd ⟨1, 2, 100⟩ 2 (20150 + (i : Int))),
      subtotal := 730, totalDiscount := 73, totalSurcharge := 30, totalPrice := 657 }
    ⟨1, 2, 100⟩ (by rfl) (by rfl)
  exact ⟨h.2.2.1, h.2.2.2⟩

/-- C8: resolving the nightly base price considers exactly the overrides of
the category whose `[startDate, endDate]` interval contains the date
(inclusive on both ends); when none match it returns the category's standard
base price, and otherwise it returns the price of a matching override whose
creation timestamp is maximal among the matches (the tie-break — earliest
stored row — being deterministic). -/
theorem rate_override_resolution :
    ∀ (db : DB) (rt : RoomType) (date : Int),
      (∀ o, overrideMatches rt.id date o = true ↔
        (o.roomTypeId = rt.id ∧ o.startDate ≤ date ∧ date ≤ o.endDate)) ∧
      (db.roomPrices.filter (overrideMatches rt.id date) = [] →
        getDailyBasePrice db rt date = rt.basePrice) ∧
      (db.roomPrices.filter (overrideMatches rt.id date) ≠ [] →
        ∃ o ∈ db.roomPrices.filter (overrideMatches rt.id date),
          getDailyBasePrice db rt date = o.price ∧
          ∀ o' ∈ db.roomPrices.filter (overrideMatches rt.id date),
            o'.createdAt ≤ o.createdAt) := by
  intro db rt date
  refine ⟨?_, ?_, ?_⟩
  · intro o
    simp [overrideMatches, and_assoc]
  · intro hnil
    unfold getDailyBasePrice
    rw [hnil]
    rfl
  · intro hne
    unfold getDailyBasePrice
    cases hp : pickLatest (db.roomPrices.filter (overrideMatches rt.id date)) with
    | none => exact absurd ((pickLatest_eq_none_iff _).mp hp) hne
    | some o =>
      obtain ⟨hmem, hmax⟩ := pickLatest_spec _ o hp
      exact ⟨o, hmem, rfl, hmax⟩

/-- Witness for `rate_override_resolution`: on `dbTwoOverrides` (two
overrides covering day 50, prices 80 and 90, created at 3 and 9), the
resolved price is that of an override with maximal creation time — and
evaluates to 90, while a date outside every override (day 300) resolves to
the standard base price 100. -/
theorem rate_override_resolution_witness :
    (∃ o ∈ dbTwoOverrides.roomPrices.filter (overrideMatches 1 50),
      getDailyBasePrice dbTwoOverrides ⟨1, 2, 100⟩ 50 = o.price ∧
      ∀ o' ∈ dbTwoOverrides.roomPrices.filter (overrideMatches 1 50),
        o'.createdAt ≤ o.createdAt) ∧
    getDailyBasePrice dbTwoOverrides ⟨1, 2, 100⟩ 50 = 90 ∧
    getDailyBasePrice dbTwoOverrides ⟨1, 2, 100⟩ 300 = 100 := by
  refine ⟨(rate_override_resolution dbTwoOverrides ⟨1, 2, 100⟩ 50).2.2 (by decide), by rfl,
    (rate_override_resolution dbTwoOverrides ⟨1, 2, 100⟩ 300).2.1 (by rfl)⟩

theorem isRoomAvailable_false_iff (db : DB) (roomId : Nat) (ci co : Int) :
    isRoomAvailable db roomId ci co = false ↔
    ∃ b ∈ db.bookings, (∃ it ∈ b.items, it.roomId = roomId) ∧
      b.checkIn ≤ co ∧ ci ≤ b.checkOut := by
  rw [isRoomAvailable, beq_eq_false_iff_ne, Ne, overlappingItemCount,
    List.sum_eq_zero_iff]
  push_neg
  constructor
  · rintro ⟨x, hx, hxne⟩
    obtain ⟨b, hb, rfl⟩ := List.mem_map.mp hx
    by_cases hov : bookingOverlaps ci co b = true
    · rw [if_pos hov] at hxne
      obtain ⟨it, hit⟩ := List.exists_mem_of_length_pos (Nat.pos_of_ne_zero hxne)
      obtain ⟨hmem, hid⟩ := List.mem_filter.mp hit
      rw [bookingOverlaps] at hov
      simp only [Bool.and_eq_true, decide_eq_true_eq] at hov
      exact ⟨b, hb, ⟨it, hmem, beq_iff_eq.mp hid⟩, hov.1, hov.2⟩
    · rw [if_neg hov] at hxne
      exact absurd rfl hxne
  · rintro ⟨b, hb, ⟨it, hit, hid⟩, h1, h2⟩
    refine ⟨if bookingOverlaps ci co b then
        (b.items.filter fun x => x.roomId == roomId).length else 0,
      List.mem_map.mpr ⟨b, hb, rfl⟩, ?_⟩
    have hov : bookingOverlaps ci co b = true := by
      simp only [bookingOverlaps, Bool.and_eq_true, decide_eq_true_eq]
      exact ⟨h1, h2⟩
    rw [if_pos hov]
    intro hlen
    have : it ∈ b.items.filter fun x => x.roomId == roomId :=
      List.mem_filter.mpr ⟨hit, beq_iff_eq.mpr hid⟩
    rw [List.length_eq_zero] at hlen
    rw [hlen] at this
    exact absurd this (List.not_mem_nil it)

theorem roomBlocked_true_iff (db : DB) (r : Room) (ci co : Int) :
    roomBlocked db r ci co = true ↔
    ∃ b ∈ db.bookings, b.status ≠ "cancelled" ∧
      (∃ it ∈ b.items, it.roomId = r.id) ∧ b.checkIn ≤ co ∧ ci ≤ b.checkOut := by
  rw [roomBlocked]
  simp only [List.any_eq_true, Bool.and_eq_true, beq_iff_eq, bne_iff_ne,
    bookingOverlaps, decide_eq_true_eq]
  exact exists_congr fun b => by tauto

theorem getAvailableRooms_mem_iff (db : DB) (hotelId : Nat) (ci co : Int)
    (guests : Nat) (r : Room) :
    r ∈ getAvailableRooms db hotelId ci co guests ↔
    r ∈ db.rooms ∧ r.hotelId = hotelId ∧
    (∃ rt, findRoomType db r.roomTypeId = some rt ∧ guests ≤ rt.maxGuests) ∧
    ¬ ∃ b ∈ db.bookings, b.status ≠ "cancelled" ∧
        (∃ it ∈ b.items, it.roomId = r.id) ∧ b.checkIn ≤ co ∧ ci ≤ b.checkOut := by
  constructor
  · intro h
    obtain ⟨hmem, hcond⟩ := List.mem_filter.mp h
    simp only [Bool.and_eq_true, beq_iff_eq] at hcond
    obtain ⟨⟨hhot, hcap⟩, hnb⟩ := hcond
    refine ⟨hmem, hhot, (capacity_match_iff db r.roomTypeId guests).mp hcap, ?_⟩
    intro hex
    rw [(roomBlocked_true_iff db r ci co).mpr hex] at hnb
    simp at hnb
  · rintro ⟨hmem, hhot, hcap, hnb⟩
    refine List.mem_filter.mpr ⟨hmem, ?_⟩
    simp only [Bool.and_eq_true, beq_iff_eq]
    refine ⟨⟨hhot, (capacity_match_iff db r.roomTypeId guests).mpr hcap⟩, ?_⟩
    cases hrb : roomBlocked db r ci co with
    | false => rfl
    | true => exact absurd ((roomBlocked_true_iff db r ci co).mp hrb) hnb

/-- C2 (amended): `isRoomAvailable` reports the room unavailable iff some
booking item for that room belongs to a booking whose interval overlaps the
requested one under the boundary-inclusive test
`existing.checkIn ≤ requested.checkOut AND existing.checkOut ≥
requested.checkIn` — with no condition on the booking's status, so cancelled
bookings also make the room unavailable there; `getAvailableRooms` is the
query that additionally ignores cancelled bookings (and filters by hotel and
capacity). In particular a booking ending on day N conflicts with a request
starting on day N. -/
theorem availability_semantics :
    (∀ (db : DB) (roomId : Nat) (ci co : Int),
      isRoomAvailable db roomId ci co = false ↔
      ∃ b ∈ db.bookings, (∃ it ∈ b.items, it.roomId = roomId) ∧
        b.checkIn ≤ co ∧ ci ≤ b.checkOut) ∧
    (∀ (db : DB) (hotelId : Nat) (ci co : Int) (guests : Nat) (r : Room),
      r ∈ getAvailableRooms db hotelId ci co guests ↔
      r ∈ db.rooms ∧ r.hotelId = hotelId ∧
      (∃ rt, findRoomType db r.roomTypeId = some rt ∧ guests ≤ rt.maxGuests) ∧
      ¬ ∃ b ∈ db.bookings, b.status ≠ "cancelled" ∧
          (∃ it ∈ b.items, it.roomId = r.id) ∧ b.checkIn ≤ co ∧ ci ≤ b.checkOut) ∧
    isRoomAvailable dbConf 1 102 105 = false ∧
    getAvailableRooms dbConf 1 102 105 2 = [] :=
  ⟨isRoomAvailable_false_iff, getAvailableRooms_mem_iff, by decide, by decide⟩

/-- Counterexample to C2 as stated: in `dbCancelled` the only booking for
room 1 overlapping [101, 103] is cancelled, yet `isRoomAvailable` reports
the room unavailable — its query has no status filter, so "unavailable iff
some non-cancelled reservation overlaps" is false for this availability
check. -/
theorem availability_cancelled_counterexample :
    ¬ (isRoomAvailable dbCancelled 1 101 103 = false ↔
       ∃ b ∈ dbCancelled.bookings, b.status ≠ "cancelled" ∧
         (∃ it ∈ b.items, it.roomId = 1) ∧ b.checkIn ≤ 103 ∧ 101 ≤ b.checkOut) := by
  decide

/-- C6 (amended): `cancelBooking` fails with a 404 (`ReservationNotFound`)
when the booking is absent; when it is present and the requester is
authorized, it succeeds — whatever the current status, including
`cancelled` (there is no `AlreadyCancelled` error) — returning the booking
with status `cancelled`, setting the status of every stored booking with
that id to `cancelled`, and setting every room referenced by the booking's
items back to `available`. -/
theorem cancel_semantics :
    ∀ (db : DB) (req : Requester) (id : Nat),
      (db.bookings.find? (fun b => b.id == id) = none →
        cancelBooking db req id = (.notFound, db)) ∧
      (∀ b, db.bookings.find? (fun b => b.id == id) = some b →
        authorizedFor req b = true →
        (cancelBooking db req id).1 = .cancelledB { b with status := "cancelled" } ∧
        (∀ b' ∈ (cancelBooking db req id).2.bookings, b'.id = id →
          b'.status = "cancelled") ∧
        (∀ r ∈ (cancelBooking db req id).2.rooms,
          (∃ it ∈ b.items, it.roomId = r.id) → r.status = "available")) := by
  intro db req id
  constructor
  · intro hnone
    rw [cancelBooking, hnone]
  · intro b hfind hauth
    rw [cancelBooking, hfind]
    dsimp only
    rw [hauth, Bool.not_true, if_neg (by exact Bool.false_ne_true)]
    refine ⟨rfl, ?_, ?_⟩
    · intro b' hb' hid
      exact setBookingStatus_mem db.bookings id "cancelled" b' hb' hid
    · intro r hr hex
      exact foldl_setRoomStatus_item_available b.items db.rooms r hr hex

/-- Counterexample to C6 as stated: the booking in `dbCancelled` already has
status `cancelled`, yet `cancelBooking` does not fail with an
`AlreadyCancelled` error — it succeeds and returns the booking again. -/
theorem cancel_already_cancelled_counterexample :
    dbCancelled.bookings.find? (fun b => b.id == 1)
      = some ⟨1, 5, 1, 100, 102, 200, "cancelled", [⟨1, 100, 2⟩]⟩ ∧
    (cancelBooking dbCancelled ⟨5, "USER"⟩ 1).1
      = .cancelledB ⟨1, 5, 1, 100, 102, 200, "cancelled", [⟨1, 100, 2⟩]⟩ := by
  decide

/-- Witness for `cancel_semantics`: applied to the store `dbConf` holding the
confirmed booking `bookingConf` (room 1, status `booked`), cancelled by its
owner. -/
theorem cancel_semantics_witness :
    (cancelBooking dbConf ⟨5, "USER"⟩ 1).1
      = .cancelledB ⟨1, 5, 1, 100, 102, 200, "cancelled", [⟨1, 100, 2⟩]⟩ ∧
    (cancelBooking dbConf ⟨5, "USER"⟩ 1).2.rooms.map Room.status = ["available"] :=
  ⟨((cancel_semantics dbConf ⟨5, "USER"⟩ 1).2 bookingConf (by decide) (by decide)).1,
   by decide⟩

/-- C5 (amended): a request with `checkOut ≤ checkIn` is not rejected:
`calculateTotalPrice` computes a non-positive night count, runs zero loop
iterations and returns an empty breakdown with subtotal, discount and total
all 0 (its only failure is an unresolved room type), and `createBooking`
validates only the presence of its fields, so it proceeds and persists a
zero-night, zero-amount booking. -/
theorem degenerate_range_not_rejected :
    (∀ (db : DB) (rtId : Nat) (checkIn checkOut : Int) (guests : Nat) (rt : RoomType),
      findRoomType db rtId = some rt →
      checkOut ≤ checkIn →
      calculateTotalPrice db rtId checkIn checkOut guests
        = .ok { dailyPrices := [], subtotal := 0, totalDiscount := 0,
                totalSurcharge := 0, totalPrice := 0 }) ∧
    (createBooking dbStd 7 ⟨1, 100, 100, 2, "Ada", "ada"⟩).1
      = .created ⟨1, 7, 1, 100, 100, 0, "confirmed", [⟨1, 100, 0⟩]⟩ := by
  constructor
  · intro db rtId checkIn checkOut guests rt hrt hle
    unfold calculateTotalPrice
    rw [hrt]
    dsimp only
    have hz : (checkOut - checkIn).toNat = 0 := Int.toNat_of_nonpos (by omega)
    rw [hz]
    have h7 : ¬ (7 : Int) ≤ checkOut - checkIn := by omega
    rw [if_neg h7]
    simp only [List.range_zero, List.map_nil, List.foldl_nil, sub_zero]
  · decide

/-- Counterexample to C5 as stated: with `checkOut = checkIn` (night count
zero) the pricing call returns a successful result — an empty breakdown with
total 0 — and the reservation call succeeds and writes a booking, instead of
either being rejected with an `InvalidDateRange`/`InvalidInput` error. -/
theorem degenerate_range_counterexample :
    calculateTotalPrice dbStd 1 100 100 2
      = .ok { dailyPrices := [], subtotal := 0, totalDiscount := 0,
              totalSurcharge := 0, totalPrice := 0 } ∧
    (createBooking dbStd 7 ⟨1, 100, 100, 2, "Ada", "ada"⟩).2.bookings
      = [⟨1, 7, 1, 100, 100, 0, "confirmed", [⟨1, 100, 0⟩]⟩] := by
  exact ⟨by rfl, by decide⟩

/-- Witness for `degenerate_range_not_rejected`: applied to `dbStd` with the
interval [100, 100] (checkOut = checkIn). -/
theorem degenerate_range_not_rejected_witness :
    calculateTotalPrice dbStd 1 100 100 2
      = .ok { dailyPrices := [], subtotal := 0, totalDiscount := 0,
              totalSurcharge := 0, totalPrice := 0 } :=
  degenerate_range_not_rejected.1 dbStd 1 100 100 2 ⟨1, 2, 100⟩ (by rfl) (by decide)

theorem createBooking_created {db : DB} {userId : Nat} {inp : BookingInput}
    {b : Booking} {db2 : DB}
    (h : createBooking db userId inp = (.created b, db2)) :
    ∃ room rt pr,
      db.rooms.find? (fun r => r.id == inp.roomId) = some room ∧
      findRoomType db room.roomTypeId = some rt ∧
      calculateTotalPrice db room.roomTypeId inp.checkInDate inp.checkOutDate
        inp.guests = .ok pr ∧
      b = newBookingOf db userId inp room rt pr := by
  unfold createBooking createBookingCore at h
  split at h
  · simp at h
  · split at h
    · simp at h
    · rename_i room hroom
      split at h
      · simp at h
      · split at h
        · simp at h
        · split at h
          · rename_i rt pr hrt hok
            rw [if_neg (by simp)] at h
            rw [Prod.mk.injEq] at h
            obtain ⟨h1, -⟩ := h
            injection h1 with h1
            exact ⟨room, rt, pr, hroom, hrt, hok, h1.symm⟩
          · simp at h

/-- C10 (amended): on a successful reserve, the created booking carries
exactly one stay item whose `pricePerNight` is the first night's total when
that total is nonzero, and the category's standard base price when the
nightly list is empty or its first total equals 0 (the source coalesces with
JS `||`, which treats 0 as missing); the item's night count is the number of
priced nights and the reservation's `totalAmount` is the discounted total —
so `totalAmount` can differ from `pricePerNight * nights`, as on the
two-night stay `inpDec` (totalAmount 255, pricePerNight 120, nights 2). -/
theorem stay_item_capture :
    (∀ (db : DB) (userId : Nat) (inp : BookingInput) (b : Booking) (db2 : DB),
      createBooking db userId inp = (.created b, db2) →
      ∃ room rt pr,
        db.rooms.find? (fun r => r.id == inp.roomId) = some room ∧
        findRoomType db room.roomTypeId = some rt ∧
        calculateTotalPrice db room.roomTypeId inp.checkInDate inp.checkOutDate
          inp.guests = .ok pr ∧
        b.totalAmount = pr.totalPrice ∧
        b.items = [⟨room.id,
          match pr.dailyPrices.head? with
          | some dp => if dp.totalPrice = 0 then rt.basePrice else dp.totalPrice
          | none => rt.basePrice,
          pr.dailyPrices.length⟩]) ∧
    (match (createBooking dbStd 7 inpDec).1 with
      | .created b => (b.totalAmount, b.items.map (fun it => (it.pricePerNight, it.nights)))
      | _ => (0, [])) = ((255 : ℚ), [((120 : ℚ), 2)]) ∧
    (255 : ℚ) ≠ 120 * 2 := by
  refine ⟨?_, by decide, by norm_num⟩
  intro db userId inp b db2 h
  obtain ⟨room, rt, pr, hroom, hrt, hok, hb⟩ := createBooking_created h
  exact ⟨room, rt, pr, hroom, hrt, hok, by rw [hb]; rfl, by rw [hb]; rfl⟩

/-- Counterexample to C10 as stated: under the price-0 override of
`dbZeroOverride` the stay has one priced night with total 0, yet the stored
`pricePerNight` is the standard base price 100, not the first night's total
0 — the fallback also fires on a zero (falsy) first-night total, not only on
an empty nightly list. -/
theorem stay_item_capture_counterexample :
    (calculateTotalPrice dbZeroOverride 1 20150 20151 2).map
        (fun r => r.dailyPrices.map DailyPrice.totalPrice) = .ok [0] ∧
    (createBooking dbZeroOverride 7 ⟨1, 20150, 20151, 2, "Ada", "ada"⟩).1
      = .created ⟨1, 7, 1, 20150, 20151, 0, "confirmed", [⟨1, 100, 1⟩]⟩ ∧
    (100 : ℚ) ≠ 0 :=
  ⟨by rfl, by decide, by norm_num⟩

/-- Witness for `stay_item_capture`: applied to the concrete run
`createBooking dbStd 7 inpDec`, which creates `bookingDec`. -/
theorem stay_item_capture_witness :
    ∃ room rt pr,
      dbStd.rooms.find? (fun r => r.id == inpDec.roomId) = some room ∧
      findRoomType dbStd room.roomTypeId = some rt ∧
      calculateTotalPrice dbStd room.roomTypeId inpDec.checkInDate inpDec.checkOutDate
        inpDec.guests = .ok pr ∧
      bookingDec.totalAmount = pr.totalPrice ∧
      bookingDec.items = [⟨room.id,
        match pr.dailyPrices.head? with
        | some dp => if dp.totalPrice = 0 then rt.basePrice else dp.totalPrice
        | none => rt.basePrice,
        pr.dailyPrices.length⟩] :=
  stay_item_capture.1 dbStd 7 inpDec bookingDec
    ((createBooking dbStd 7 inpDec).2) (by decide)

/-- C1 (evaluation at the failing input): on `dbStd`, reserving room 1 for
[20441, 20443] succeeds and cancelling the resulting booking succeeds, but
the second reserve of the same room and interval is rejected with
`Room is already booked for the selected dates`, and `isRoomAvailable` still
reports the room unavailable for the exact original interval — the overlap
queries of `createBooking` and `isRoomAvailable` do not exclude cancelled
bookings, even though the room's status was reset to `available`. -/
theorem roundtrip_rebook_fails :
    (createBooking dbStd 7 inpDec).1 = .created bookingDec ∧
    (cancelBooking (createBooking dbStd 7 inpDec).2 ⟨7, "USER"⟩ 1).1
      = .cancelledB { bookingDec with status := "cancelled" } ∧
    (cancelBooking (createBooking dbStd 7 inpDec).2 ⟨7, "USER"⟩ 1).2.rooms.map Room.status
      = ["available"] ∧
    (createBooking (cancelBooking (createBooking dbStd 7 inpDec).2 ⟨7, "USER"⟩ 1).2
        7 inpDec).1
      = .clientError 400 "Room is already booked for the selected dates" ∧
    isRoomAvailable (cancelBooking (createBooking dbStd 7 inpDec).2 ⟨7, "USER"⟩ 1).2
        1 20441 20443 = false := by
  decide

/-- C7 (evaluation at the failing input): when the `prisma.room.update`
following the booking insert throws, `createBooking` answers with the
catch-all 500 error — but the booking it inserted stays persisted and the
room's status is still `available`: the reservation write and the room
status flip are not atomic, and an error response does not imply an
unchanged store. -/
theorem create_booking_not_atomic :
    (createBookingCore dbStd 7 inpDec true).1 = .serverError "Error creating booking" ∧
    (createBookingCore dbStd 7 inpDec true).2.bookings = [bookingDec] ∧
    (createBookingCore dbStd 7 inpDec true).2.rooms.map Room.status = ["available"] := by
  decide

/-- C9 (evaluation at the failing schedule): under the interleaving
`raceSchedule` — both requests run their availability checks before either
inserts — the two concurrent `createBooking` calls for the same room and the
identical interval BOTH succeed, leaving two confirmed bookings for room 1
over [20441, 20443] (and the room status update runs once per request):
the availability check and the reservation write are not executed under any
mutual exclusion, so the exactly-one-success guarantee fails already for two
parallel calls. -/
theorem concurrent_double_booking :
    isSuccess raceRun.p1 = true ∧ isSuccess raceRun.p2 = true ∧
    raceRun.db.bookings.map (fun b =>
        (b.status, b.checkIn, b.checkOut, b.items.map BookingItem.roomId))
      = [("confirmed", 20441, 20443, [1]), ("confirmed", 20441, 20443, [1])] := by
  decide

/-- Sequential soundness of the small-step model: a schedule that runs the
first request alone to completion reproduces exactly the result and final
store of the sequential `createBooking`. -/
theorem stepReserve_sequential_run :
    (runSched 7 8 inpDec [true, true, true, true, true] ⟨dbStd, .start, .start⟩).db
      = (createBooking dbStd 7 inpDec).2 ∧
    (runSched 7 8 inpDec [true, true, true, true, true] ⟨dbStd, .start, .start⟩).p1
      = .done (createBooking dbStd 7 inpDec).1 := by
  decide

/-- Witness for `availability_semantics`: its first equivalence applied to
the concrete store `dbCancelled` and the interval [101, 103], the overlap
witnessed by the stored booking's item for room 1. -/
theorem availability_semantics_witness :
    isRoomAvailable dbCancelled 1 101 103 = false :=
  (availability_semantics.1 dbCancelled 1 101 103).mpr
    ⟨⟨1, 5, 1, 100, 102, 200, "cancelled", [⟨1, 100, 2⟩]⟩, by decide,
     ⟨⟨1, 100, 2⟩, by decide, rfl⟩, by decide, by decide⟩
